import Mathlib

/-!
Shallow embedding of the FoodieSpot reservation core
(src/tools/availability.py, src/tools/reservation.py, src/tools/search.py,
src/data/data_store.py, src/models/restaurant.py, src/models/reservation.py).

Modelling conventions:
* Python strings are Lean `String`; Python ints are Lean `Int`.
* The JSON-file-backed `DataStore` is a record holding the restaurant and
  reservation lists; the file-I/O exception path of
  `DataStore.add_reservation` (its `except` branch returning `False`) is
  modelled by the `persistFails` flag of the store state.
* Fallible parsing (`int(...)`, `strptime`, tuple unpacking of `split`)
  returns `Option`; an exception that the source does NOT catch is
  propagated as a `none` result of the whole operation.
* `datetime.now()` is modelled as an explicit `now : String` argument
  (the `%Y%m%d%H%M%S` stamp used to build reservation ids).
* The `created_at` bookkeeping field and the `rating` float are irrelevant
  to the verified claims; `created_at` is omitted and `rating` is kept as
  an `Int` placeholder (it is only read by the unembedded recommender).
-/

namespace FoodieSpot

/-- Value of a list of decimal digit characters; `none` if empty or a
non-digit occurs.  Helper for `pyInt`. -/
def digitsVal : List Char → Option Nat
  | [] => none
  | cs => cs.foldlM (fun acc c => if c.isDigit then some (acc * 10 + (c.toNat - 48)) else none) 0

/-- Python `int(str)` on the string shapes relevant here: an optional single
sign followed by decimal digits.  (Python also strips whitespace and allows
underscores; no input in this development uses those forms.) -/
def pyInt (s : String) : Option Int :=
  match s.data with
  | '-' :: ds => (digitsVal ds).map (fun n => -(n : Int))
  | '+' :: ds => (digitsVal ds).map (fun n => (n : Int))
  | ds => (digitsVal ds).map (fun n => (n : Int))

/-- Python `s.split(":")` on the underlying characters (structural, so the
kernel can evaluate it). -/
def splitColonChars : List Char → List (List Char)
  | [] => [[]]
  | c :: rest =>
    let r := splitColonChars rest
    if c = ':' then [] :: r
    else
      match r with
      | [] => [[c]]
      | g :: gs => (c :: g) :: gs

def splitColon (s : String) : List String :=
  (splitColonChars s.data).map (fun cs => String.mk cs)

/-- `a, b = map(int, s.split(":"))`: exactly two colon-separated fields, both
parsing as ints; `none` models the `ValueError` raised otherwise. -/
def parseHM (s : String) : Option (Int × Int) :=
  match splitColon s with
  | [a, b] =>
    match pyInt a, pyInt b with
    | some x, some y => some (x, y)
    | _, _ => none
  | _ => none

/-- Python `f"{n:02d}"`. -/
def pad2 (n : Int) : String :=
  if 0 ≤ n ∧ n < 10 then "0" ++ toString n else toString n

/-- The slot string `f"{h:02d}:{m:02d}"` built by the availability loop. -/
def fmtSlot (h m : Int) : String := pad2 h ++ ":" ++ pad2 m

/-- Render a minutes-of-day value as a slot string (specification helper,
used to state what the generated slot strings denote). -/
def minToFmt (t : Int) : String := fmtSlot (t / 60) (t % 60)

/-- Python substring containment `needle in hay` on char lists. -/
def hasInfix : List Char → List Char → Bool
  | [], needle => needle.isPrefixOf ([] : List Char)
  | hay@(_ :: t), needle => needle.isPrefixOf hay || hasInfix t needle

/-- Python `needle in hay` for strings. -/
def strIn (needle hay : String) : Bool := hasInfix hay.data needle.data

/-- Python `str.lower()` on the ASCII range (all catalog text handled by the
source is ASCII), defined structurally over the characters. -/
def pyCharLower (c : Char) : Char :=
  if 'A' ≤ c ∧ c ≤ 'Z' then Char.ofNat (c.toNat + 32) else c

def pyLower (s : String) : String := String.mk (s.data.map pyCharLower)

/-! ## Calendar arithmetic (`datetime.strptime(date, "%Y-%m-%d")` and
`.weekday()`) -/

def isLeapYear (y : Nat) : Bool := y % 4 == 0 && (y % 100 != 0 || y % 400 == 0)

def daysInMonth (y m : Nat) : Nat :=
  if m == 2 then (if isLeapYear y then 29 else 28)
  else if m == 4 || m == 6 || m == 9 || m == 11 then 30
  else 31

/-- Take one or two leading digit characters followed by the given rest
pattern handling: returns (value, remaining) for a 1-2 digit field, matching
CPython strptime's `%m`/`%d` field shapes. -/
def takeField2 : List Char → Option (Nat × List Char)
  | c₁ :: c₂ :: rest =>
    if c₁.isDigit then
      if c₂.isDigit then some ((c₁.toNat - 48) * 10 + (c₂.toNat - 48), rest)
      else some (c₁.toNat - 48, c₂ :: rest)
    else none
  | [c₁] => if c₁.isDigit then some (c₁.toNat - 48, []) else none
  | [] => none

/-- `datetime.strptime(s, "%Y-%m-%d")`: four-digit year, dash, 1-2 digit
month, dash, 1-2 digit day, nothing trailing, and the triple must form a
real calendar date (Feb 30 etc. raise `ValueError`, modelled as `none`). -/
def parseDate (s : String) : Option (Nat × Nat × Nat) :=
  match s.data with
  | y₁ :: y₂ :: y₃ :: y₄ :: '-' :: rest =>
    if y₁.isDigit && y₂.isDigit && y₃.isDigit && y₄.isDigit then
      let y := ((y₁.toNat - 48) * 10 + (y₂.toNat - 48)) * 100 +
               ((y₃.toNat - 48) * 10 + (y₄.toNat - 48))
      match takeField2 rest with
      | some (mo, '-' :: rest₂) =>
        match takeField2 rest₂ with
        | some (d, []) =>
          if 1 ≤ y ∧ 1 ≤ mo ∧ mo ≤ 12 ∧ 1 ≤ d ∧ d ≤ daysInMonth y mo then
            some (y, mo, d)
          else none
        | _ => none
      | _ => none
    else none
  | _ => none

/-- Day count since 0000-03-01 (proleptic Gregorian), valid for `y ≥ 1`. -/
def civilDayNumber (y mo d : Nat) : Nat :=
  let y' := y - (if mo ≤ 2 then 1 else 0)
  let era := y' / 400
  let yoe := y' % 400
  let mp := if mo > 2 then mo - 3 else mo + 9
  let doy := (153 * mp + 2) / 5 + d - 1
  let doe := yoe * 365 + yoe / 4 - yoe / 100 + doy
  era * 146097 + doe

/-- Python `date.weekday()`: Monday = 0 … Sunday = 6. -/
def pythonWeekday (y mo d : Nat) : Nat := (civilDayNumber y mo d + 2) % 7

inductive DayType | weekday | weekend
deriving DecidableEq, Repr

/-- `"weekend" if date_obj.weekday() >= 5 else "weekday"`. -/
def dayClass (y mo d : Nat) : DayType :=
  if 5 ≤ pythonWeekday y mo d then DayType.weekend else DayType.weekday

/-! ## Data model -/

structure HoursEntry where
  openTime : String   -- JSON key "open"
  closeTime : String  -- JSON key "close"
deriving DecidableEq, Repr

structure HoursMap where
  weekday : Option HoursEntry
  weekend : Option HoursEntry
deriving DecidableEq, Repr

def HoursMap.get : HoursMap → DayType → Option HoursEntry
  | h, DayType.weekday => h.weekday
  | h, DayType.weekend => h.weekend

structure Restaurant where
  id : String
  name : String
  cuisine : String
  location : String
  capacity : Int
  price_range : Int
  rating : Int
  description : String
  hours : HoursMap
deriving DecidableEq, Repr

structure Reservation where
  id : String
  restaurant_id : String
  customer_name : String
  date : String
  time : String
  party_size : Int
  email : Option String
  phone : Option String
  status : String
deriving DecidableEq, Repr

structure DataStore where
  restaurants : List Restaurant
  reservations : List Reservation
  /-- Models the environment making the JSON write in
  `DataStore.add_reservation` raise (the caught `except` branch). -/
  persistFails : Bool
deriving DecidableEq, Repr

/-! ## DataStore operations (src/data/data_store.py) -/

def getRestaurant (s : DataStore) (restaurant_id : String) : Option Restaurant :=
  s.restaurants.find? (fun r => r.id == restaurant_id)

def getReservation (s : DataStore) (reservation_id : String) : Option Reservation :=
  s.reservations.find? (fun r => r.id == reservation_id)

def getReservationsByDate (s : DataStore) (restaurant_id date : String) : List Reservation :=
  s.reservations.filter
    (fun r => r.restaurant_id == restaurant_id && r.date == date && r.status == "confirmed")

/-- The update-or-append body of `add_reservation`: replace the first
reservation with the same id, else append. -/
def replaceFirstById : List Reservation → Reservation → List Reservation
  | [], r => [r]
  | x :: xs, r => if x.id == r.id then r :: xs else x :: replaceFirstById xs r

/-- `add_reservation`: returns the success boolean together with the next
store state (unchanged when the write raises). -/
def addReservation (s : DataStore) (r : Reservation) : Bool × DataStore :=
  if s.persistFails then (false, s)
  else (true, { s with reservations := replaceFirstById s.reservations r })

/-! ## Availability engine (src/tools/availability.py) -/

/-- Loop guard `current_hour < close_hour or (current_hour == close_hour and
current_minute < close_minute)`. -/
def slotCond (h m chh cmm : Int) : Bool := h < chh || (h == chh && m < cmm)

/-- The slot-generation while loop.  `fuel` bounds the iteration count; the
value supplied by `checkAvailability` strictly exceeds the number of
iterations the source loop performs, so fuel exhaustion is unreachable. -/
def genSlots : Nat → Int → Int → Int → Int → List String → List String
  | 0, _, _, _, _, _ => []
  | fuel + 1, h, m, chh, cmm, booked =>
    if slotCond h m chh cmm then
      let ts := fmtSlot h m
      let rest :=
        if 60 ≤ m + 30 then genSlots fuel (h + 1) 0 chh cmm booked
        else genSlots fuel h (m + 30) chh cmm booked
      if booked.contains ts then rest else ts :: rest
    else []

/-- Fuel supplied to `genSlots` (an upper bound on the source loop's
iteration count from the given start state). -/
def slotFuel (oh om chh cmm : Int) : Nat :=
  ((chh * 60 + cmm) - (oh * 60 + om)).toNat + om.toNat + 62

/-- The per-slot parse loop of the time-narrowing filter: pairs every slot
with its minutes-of-day value, `none` if some slot fails to parse (the
`ValueError` that aborts the whole filter). -/
def slotPairs : List String → Option (List (String × Int))
  | [] => some []
  | sl :: rest =>
    match parseHM sl with
    | none => none
    | some (a, b) => (slotPairs rest).map (fun ps => (sl, a * 60 + b) :: ps)

/-- The `if time:` narrowing block: keep slots within 120 minutes of the
requested time; any parse failure is caught and leaves the list unfiltered. -/
def narrowSlots (time : String) (slots : List String) : List String :=
  match parseHM time with
  | none => slots
  | some (th, tm) =>
    match slotPairs slots with
    | none => slots
    | some pairs =>
      (pairs.filter (fun p => (p.2 - (th * 60 + tm)).natAbs ≤ 120)).map Prod.fst

/-- `check_availability`.  Result `none` models the uncaught `ValueError`
raised when the restaurant's stored hour strings fail to parse (the only
exception this function does not catch). -/
def checkAvailability (s : DataStore) (restaurant_id date : String)
    (time : Option String) (party_size : Option Int) : Option (List String) :=
  match getRestaurant s restaurant_id with
  | none => some []
  | some restaurant =>
    if (match party_size with
        | some p => p != 0 && decide (restaurant.capacity < p)
        | none => false) then some []
    else
      let booked := (getReservationsByDate s restaurant_id date).map (fun r => r.time)
      match parseDate date with
      | none => some []
      | some (y, mo, d) =>
        match restaurant.hours.get (dayClass y mo d) with
        | none => some []
        | some hrs =>
          match parseHM hrs.openTime, parseHM hrs.closeTime with
          | some (oh, om), some (chh, cmm) =>
            let slots := genSlots (slotFuel oh om chh cmm) oh om chh cmm booked
            some (match time with
                  | none => slots
                  | some t => if t == "" then slots else narrowSlots t slots)
          | _, _ => none

/-! ## Reservation service (src/tools/reservation.py) -/

def capacityExceededMsg (cap : Int) : String :=
  "Party size exceeds restaurant capacity (" ++ toString cap ++ ")"

def slotUnavailableMsg : String := "The requested time slot is not available"

/-- `validate_reservation_data`.  (`party_size` is typed `Int`, so the
source's `isinstance(party_size, int)` test is identically true.) -/
def validateReservationData (s : DataStore) (restaurant_id date time : String)
    (party_size : Int) : Bool × String :=
  match getRestaurant s restaurant_id with
  | none => (false, "Restaurant with ID '" ++ restaurant_id ++ "' does not exist.")
  | some restaurant =>
    if (parseDate date).isNone then
      (false, "Invalid date format. Please use YYYY-MM-DD format.")
    else
      match splitColon time with
      | [hs, ms] =>
        match pyInt hs, pyInt ms with
        | some hv, some mv =>
          if 0 ≤ hv ∧ hv ≤ 23 ∧ 0 ≤ mv ∧ mv ≤ 59 then
            if party_size ≤ 0 then
              (false, "Invalid party size: " ++ toString party_size ++ ". Must be a positive number.")
            else if restaurant.capacity < party_size then
              (false, "Party size " ++ toString party_size ++ " exceeds restaurant capacity of "
                ++ toString restaurant.capacity ++ ".")
            else (true, "Validation successful")
          else
            (false, "Invalid time: " ++ time ++ ". Please use HH:MM format (24-hour).")
        | _, _ => (false, "Invalid time format. Please use HH:MM format.")
      | _ => (false, "Invalid time format. Please use HH:MM format.")

/-- `make_reservation`.  First component `none` models an uncaught exception
escaping (malformed stored hours); otherwise it is the returned
`(success, reservation-or-error)` pair.  Second component is the store
afterwards. -/
def makeReservation (s : DataStore) (restaurant_id customer_name date time : String)
    (party_size : Int) (email phone : Option String) (now : String) :
    Option (Bool × (String ⊕ Reservation)) × DataStore :=
  match getRestaurant s restaurant_id with
  | none => (some (false, Sum.inl "Restaurant not found"), s)
  | some restaurant =>
    if restaurant.capacity < party_size then
      (some (false, Sum.inl (capacityExceededMsg restaurant.capacity)), s)
    else
      match validateReservationData s restaurant_id date time party_size with
      | (false, message) => (some (false, Sum.inl message), s)
      | (true, _) =>
        match checkAvailability s restaurant_id date (some time) (some party_size) with
        | none => (none, s)
        | some available_slots =>
          if available_slots.contains time then
            let reservation : Reservation :=
              { id := "res_" ++ now, restaurant_id := restaurant_id,
                customer_name := customer_name, date := date, time := time,
                party_size := party_size, email := email, phone := phone,
                status := "confirmed" }
            let saved := addReservation s reservation
            (some (saved.1, Sum.inr reservation), saved.2)
          else (some (false, Sum.inl slotUnavailableMsg), s)

/-- The `updates` dictionary of `update_reservation`: `none` means the key
is absent; for `email`/`phone` the stored value is itself optional. -/
structure Updates where
  date : Option String := none
  time : Option String := none
  party_size : Option Int := none
  status : Option String := none
  email : Option (Option String) := none
  phone : Option (Option String) := none
deriving DecidableEq, Repr

/-- The field-application block of `update_reservation`. -/
def applyUpdates (r : Reservation) (u : Updates) : Reservation :=
  { r with
    date := u.date.getD r.date,
    time := u.time.getD r.time,
    party_size := u.party_size.getD r.party_size,
    status := u.status.getD r.status,
    email := u.email.getD r.email,
    phone := u.phone.getD r.phone }

/-- `update_reservation`. -/
def updateReservation (s : DataStore) (reservation_id : String) (u : Updates) :
    Option (Bool × (String ⊕ Reservation)) × DataStore :=
  match getReservation s reservation_id with
  | none => (some (false, Sum.inl "Reservation not found"), s)
  | some reservation =>
    if reservation.status == "cancelled" then
      (some (false, Sum.inl "Cannot modify a cancelled reservation"), s)
    else
      let new_date := u.date.getD reservation.date
      let new_time := u.time.getD reservation.time
      let new_party_size := u.party_size.getD reservation.party_size
      let doSave : Option (Bool × (String ⊕ Reservation)) × DataStore :=
        let updated := applyUpdates reservation u
        let saved := addReservation s updated
        (some (true, Sum.inr updated), saved.2)
      if new_date != reservation.date || new_time != reservation.time ||
          new_party_size != reservation.party_size then
        match checkAvailability s reservation.restaurant_id new_date
            (some new_time) (some new_party_size) with
        | none => (none, s)
        | some available_slots =>
          if available_slots.contains new_time then doSave
          else (some (false, Sum.inl slotUnavailableMsg), s)
      else doSave

/-- `cancel_reservation`. -/
def cancelReservation (s : DataStore) (reservation_id : String) :
    (Bool × String) × DataStore :=
  match getReservation s reservation_id with
  | none => ((false, "Reservation not found"), s)
  | some reservation =>
    if reservation.status == "cancelled" then
      ((false, "Reservation is already cancelled"), s)
    else
      let saved := addReservation s { reservation with status := "cancelled" }
      ((true, "Reservation successfully cancelled"), saved.2)

/-! ## Search (src/tools/search.py) -/

/-- The filter block of `search_restaurants` (a restaurant survives all four
`continue` guards).  Python truthiness: `None` and `""`/`0` skip a guard. -/
def searchMatch (cuisine location : Option String) (price_range party_size : Option Int)
    (r : Restaurant) : Bool :=
  (match cuisine with
   | some c => c == "" || strIn (pyLower c) (pyLower r.cuisine)
   | none => true) &&
  (match location with
   | some l => l == "" || strIn (pyLower l) (pyLower r.location)
   | none => true) &&
  (match price_range with
   | some p => p == 0 || !(decide (p < r.price_range))
   | none => true) &&
  (match party_size with
   | some p => p == 0 || !(decide (r.capacity < p))
   | none => true)

/-- The accumulation loop of `search_restaurants`: append matches, breaking
as soon as `len(results) >= limit` (checked after the append). -/
def searchGo (cuisine location : Option String) (price_range party_size : Option Int)
    (limit : Int) : List Restaurant → Int → List Restaurant
  | [], _ => []
  | r :: rest, count =>
    if searchMatch cuisine location price_range party_size r then
      if limit ≤ count + 1 then [r]
      else r :: searchGo cuisine location price_range party_size limit rest (count + 1)
    else searchGo cuisine location price_range party_size limit rest count

def searchRestaurants (s : DataStore) (cuisine location : Option String)
    (price_range party_size : Option Int) (limit : Int) : List Restaurant :=
  searchGo cuisine location price_range party_size limit s.restaurants 0

/-- The search-match predicate as the specification words it: supplied
cuisine and location must be case-insensitive substrings of the restaurant's
fields, the price tier must not exceed the requested maximum, and the
capacity must be at least the requested party size. -/
def searchMatchSpec (cuisine location : Option String) (price_range party_size : Option Int)
    (r : Restaurant) : Bool :=
  (match cuisine with
   | some c => strIn (pyLower c) (pyLower r.cuisine)
   | none => true) &&
  (match location with
   | some l => strIn (pyLower l) (pyLower r.location)
   | none => true) &&
  (match price_range with
   | some p => decide (r.price_range ≤ p)
   | none => true) &&
  (match party_size with
   | some p => decide (p ≤ r.capacity)
   | none => true)

/-! ## Derived notions used by the verified properties -/

/-- A reservation that makes `(R, D, T)` occupied: it belongs to the slot's
restaurant and date, sits at time `T` and is confirmed. -/
def confirmedAt (R D T : String) (r : Reservation) : Prop :=
  r.restaurant_id = R ∧ r.date = D ∧ r.time = T ∧ r.status = "confirmed"

instance (R D T : String) (r : Reservation) : Decidable (confirmedAt R D T r) := by
  unfold confirmedAt; infer_instance

/-- No-double-booking relation between two store entries: they are not both
confirmed on the same `(restaurant_id, date, time)` slot. -/
def NoDoubleRel (a b : Reservation) : Prop :=
  a.status = "confirmed" → b.status = "confirmed" →
    ¬(a.restaurant_id = b.restaurant_id ∧ a.date = b.date ∧ a.time = b.time)

instance : DecidableRel NoDoubleRel := by
  unfold NoDoubleRel DecidableRel; infer_instance

/-- The store invariant: at most one confirmed reservation occupies any
given `(restaurant_id, date, time)` slot. -/
def NoDouble (l : List Reservation) : Prop := l.Pairwise NoDoubleRel

instance (l : List Reservation) : Decidable (NoDouble l) := by
  unfold NoDouble; infer_instance

/-- One `make_reservation` call of a call sequence. -/
structure MakeCall where
  restaurant_id : String
  customer_name : String
  date : String
  time : String
  party_size : Int
  email : Option String := none
  phone : Option String := none
  now : String
deriving DecidableEq, Repr

/-- Execute a sequence of `make_reservation` calls left to right. -/
def applyMakeCalls : DataStore → List MakeCall → DataStore
  | s, [] => s
  | s, c :: cs =>
    applyMakeCalls (makeReservation s c.restaurant_id c.customer_name c.date c.time
      c.party_size c.email c.phone c.now).2 cs

/-- One reservation-lifecycle call (`update_reservation` or
`cancel_reservation`). -/
inductive LifecycleOp
  | update (reservation_id : String) (u : Updates)
  | cancel (reservation_id : String)
deriving DecidableEq, Repr

def applyLifecycleOp (s : DataStore) : LifecycleOp → DataStore
  | LifecycleOp.update rid u => (updateReservation s rid u).2
  | LifecycleOp.cancel rid => (cancelReservation s rid).2

def applyLifecycleOps (s : DataStore) (ops : List LifecycleOp) : DataStore :=
  ops.foldl applyLifecycleOp s

/-- Every store entry carrying the given id is cancelled. -/
def CancelLocked (s : DataStore) (i : String) : Prop :=
  ∀ r ∈ s.reservations, r.id = i → r.status = "cancelled"

instance (s : DataStore) (i : String) : Decidable (CancelLocked s i) := by
  unfold CancelLocked; infer_instance

/-! ## Concrete fixtures used by witnesses and counterexamples -/

/-- A small restaurant with a one-hour weekday window (slots 19:00, 19:30)
on which evaluations stay cheap. -/
def wRestaurant : Restaurant :=
  { id := "rest_1", name := "Trattoria Uno", cuisine := "Italian",
    location := "Downtown", capacity := 4, price_range := 2, rating := 4,
    description := "fixture",
    hours := { weekday := some ⟨"19:00", "20:00"⟩,
               weekend := some ⟨"19:00", "20:00"⟩ } }

/-- A restaurant with no opening hours at all (no availability ever). -/
def wRestaurantNoHours : Restaurant :=
  { wRestaurant with id := "rest_2", hours := { weekday := none, weekend := none } }

/-- A confirmed reservation on `(rest_1, 2025-06-04, 19:00)`
(2025-06-04 is a Wednesday). -/
def wReservation : Reservation :=
  { id := "res_20250604180000", restaurant_id := "rest_1",
    customer_name := "Bob", date := "2025-06-04", time := "19:00",
    party_size := 2, email := none, phone := none, status := "confirmed" }

def wStore : DataStore := ⟨[wRestaurant], [wReservation], false⟩

def wStoreEmpty : DataStore := ⟨[wRestaurant], [], false⟩

def wStoreFail : DataStore := ⟨[wRestaurant], [], true⟩

def wStoreFailBooked : DataStore := ⟨[wRestaurant], [wReservation], true⟩

def wStoreTwo : DataStore := ⟨[wRestaurant, wRestaurantNoHours], [], false⟩

def wItalian (i : String) : Restaurant := { wRestaurant with id := i }

def wJapanese (i : String) : Restaurant :=
  { wRestaurant with id := i, cuisine := "Japanese" }

/-- Catalog of three Italian and two Japanese restaurants, interleaved. -/
def wCatalog : DataStore :=
  ⟨[wItalian "it_1", wJapanese "jp_1", wItalian "it_2", wJapanese "jp_2",
    wItalian "it_3"], [], false⟩

/-- A cancelled reservation fixture. -/
def wCancelledRes : Reservation :=
  { wReservation with id := "res_cancelled", time := "19:30", status := "cancelled" }

def wStoreCancelled : DataStore := ⟨[wRestaurant], [wCancelledRes, wReservation], false⟩

/-! ## Lemmas about slot generation -/

/-- The generated slot list with bookings excluded is the booking-free slot
list filtered by non-membership in the booked times. -/
lemma genSlots_eq_filter (fuel : Nat) (h m chh cmm : Int) (booked : List String) :
    genSlots fuel h m chh cmm booked =
      (genSlots fuel h m chh cmm []).filter (fun ts => !(booked.contains ts)) := by
  induction fuel generalizing h m with
  | zero => simp [genSlots]
  | succ n ih =>
    simp only [genSlots]
    by_cases hsc : slotCond h m chh cmm = true
    · rw [if_pos hsc, if_pos hsc]
      by_cases hm30 : (60 : Int) ≤ m + 30
      · simp only [if_pos hm30]
        by_cases hb : booked.contains (fmtSlot h m) = true
        · simp [hb, List.filter_cons, ih]
        · simp only [Bool.not_eq_true] at hb
          simp [hb, List.filter_cons, ih]
      · simp only [if_neg hm30]
        by_cases hb : booked.contains (fmtSlot h m) = true
        · simp [hb, List.filter_cons, ih]
        · simp only [Bool.not_eq_true] at hb
          simp [hb, List.filter_cons, ih]
    · rw [if_neg hsc, if_neg hsc]
      simp

lemma mem_genSlots_iff {x : String} (fuel : Nat) (h m chh cmm : Int) (booked : List String) :
    x ∈ genSlots fuel h m chh cmm booked ↔
      x ∈ genSlots fuel h m chh cmm [] ∧ booked.contains x = false := by
  rw [genSlots_eq_filter]
  simp [List.mem_filter]

lemma mem_genSlots_not_booked {x : String} {fuel : Nat} {h m chh cmm : Int}
    {booked : List String} (hx : x ∈ genSlots fuel h m chh cmm booked) :
    booked.contains x = false :=
  ((mem_genSlots_iff fuel h m chh cmm booked).mp hx).2

lemma minToFmt_mul_add (h m : Int) (hm0 : 0 ≤ m) (hm : m < 60) :
    minToFmt (h * 60 + m) = fmtSlot h m := by
  have e1 : (h * 60 + m) / 60 = h := by
    rw [add_comm, mul_comm, Int.add_mul_ediv_left m h (by norm_num : (60 : Int) ≠ 0),
      Int.ediv_eq_zero_of_lt hm0 hm, zero_add]
  have e2 : (h * 60 + m) % 60 = m := by
    rw [add_comm, mul_comm, Int.add_mul_emod_self_left, Int.emod_eq_of_lt hm0 hm]
  rw [minToFmt, e1, e2]

/-- Structure of the generated slots: for a well-formed start state they are
the string renderings of a strictly increasing sequence of minutes-of-day
values, all on the 30-minute grid anchored at the start and strictly below
the closing minute. -/
lemma genSlots_spec (fuel : Nat) (h m chh cmm : Int) (booked : List String)
    (hh : 0 ≤ h) (hm : m = 0 ∨ m = 30) (hcm : 0 ≤ cmm) :
    ∃ ts : List Int,
      genSlots fuel h m chh cmm booked = ts.map minToFmt ∧
      List.Sorted (· < ·) ts ∧
      ∀ t ∈ ts, (∃ k : Nat, t = h * 60 + m + 30 * k) ∧ t < chh * 60 + cmm := by
  induction fuel generalizing h m booked with
  | zero => exact ⟨[], by simp [genSlots], by simp, by simp⟩
  | succ n ih =>
    by_cases hsc : slotCond h m chh cmm = true
    · have hscP : h < chh ∨ (h = chh ∧ m < cmm) := by
        simpa [slotCond, Bool.or_eq_true, Bool.and_eq_true, decide_eq_true_eq,
          beq_iff_eq] using hsc
      have hbound : h * 60 + m < chh * 60 + cmm := by rcases hm with rfl | rfl <;> omega
      -- the successor state of the loop
      have step : ∃ h2 m2 : Int, 0 ≤ h2 ∧ (m2 = 0 ∨ m2 = 30) ∧
          h2 * 60 + m2 = h * 60 + m + 30 ∧
          (if (60 : Int) ≤ m + 30 then genSlots n (h + 1) 0 chh cmm booked
           else genSlots n h (m + 30) chh cmm booked) = genSlots n h2 m2 chh cmm booked := by
        rcases hm with rfl | rfl
        · exact ⟨h, 30, hh, Or.inr rfl, by ring, by rw [if_neg (by norm_num)]; norm_num⟩
        · exact ⟨h + 1, 0, by omega, Or.inl rfl, by ring, by rw [if_pos (by norm_num)]⟩
      obtain ⟨h2, m2, hh2, hm2, hsum2, hrest⟩ := step
      obtain ⟨ts', e', srt', p'⟩ := ih h2 m2 booked hh2 hm2
      by_cases hb : booked.contains (fmtSlot h m) = true
      · refine ⟨ts', ?_, srt', ?_⟩
        · simp only [genSlots, if_pos hsc, hrest, hb, if_true, e']
        · intro t ht
          obtain ⟨⟨k, hk⟩, hlt⟩ := p' t ht
          exact ⟨⟨k + 1, by push_cast at hk ⊢; omega⟩, hlt⟩
      · refine ⟨(h * 60 + m) :: ts', ?_, ?_, ?_⟩
        · simp only [genSlots, if_pos hsc, hrest, hb, if_false, List.map_cons, e',
            minToFmt_mul_add h m (by omega) (by omega)]
          simp [Bool.not_eq_true] at hb
          simp [hb]
        · refine List.sorted_cons.mpr ⟨?_, srt'⟩
          intro t ht
          obtain ⟨⟨k, hk⟩, _⟩ := p' t ht
          omega
        · intro t ht
          rcases List.mem_cons.mp ht with rfl | ht'
          · exact ⟨⟨0, by omega⟩, hbound⟩
          · obtain ⟨⟨k, hk⟩, hlt⟩ := p' t ht'
            exact ⟨⟨k + 1, by push_cast at hk ⊢; omega⟩, hlt⟩
    · refine ⟨[], ?_, by simp, by simp⟩
      simp [genSlots, hsc]

/-! ## Lemmas about narrowing and availability -/

lemma slotPairs_fst {slots : List String} {pairs : List (String × Int)}
    (h : slotPairs slots = some pairs) : pairs.map Prod.fst = slots := by
  induction slots generalizing pairs with
  | nil =>
    simp only [slotPairs, Option.some_inj] at h
    simp [← h]
  | cons sl rest ih =>
    simp only [slotPairs] at h
    cases hp : parseHM sl with
    | none => rw [hp] at h; exact absurd h (by simp)
    | some ab =>
      obtain ⟨a, b⟩ := ab
      rw [hp] at h
      cases hr : slotPairs rest with
      | none => rw [hr] at h; exact absurd h (by simp)
      | some ps' =>
        rw [hr] at h
        simp only [Option.map_some', Option.some_inj] at h
        rw [← h]
        simp [ih hr]

lemma mem_narrowSlots {x t : String} {slots : List String}
    (h : x ∈ narrowSlots t slots) : x ∈ slots := by
  unfold narrowSlots at h
  cases hp : parseHM t with
  | none => rw [hp] at h; exact h
  | some tm =>
    obtain ⟨th, tmm⟩ := tm
    rw [hp] at h
    cases hsp : slotPairs slots with
    | none => rw [hsp] at h; exact h
    | some pairs =>
      rw [hsp] at h
      simp only [List.mem_map] at h
      obtain ⟨p, hpm, rfl⟩ := h
      have : p ∈ pairs := List.mem_of_mem_filter hpm
      rw [← slotPairs_fst hsp]
      exact List.mem_map_of_mem Prod.fst this

lemma booked_contains_iff (s : DataStore) (R D T : String) :
    (((getReservationsByDate s R D).map (fun r => r.time)).contains T = true) ↔
      ∃ r ∈ s.reservations, confirmedAt R D T r := by
  simp only [List.contains_eq_any_beq, List.any_eq_true, List.mem_map,
    getReservationsByDate, List.mem_filter, Bool.and_eq_true, beq_iff_eq, confirmedAt]
  aesop

/-- When the restaurant, date and hours all resolve, `checkAvailability`
returns precisely the generated-and-narrowed slot list. -/
lemma checkAvailability_eq (s : DataStore) (R D : String) (tOpt : Option String)
    (psOpt : Option Int) {rest : Restaurant} (hR : getRestaurant s R = some rest)
    (hps : (match psOpt with
            | some p => p != 0 && decide (rest.capacity < p)
            | none => false) = false)
    {y mo d : Nat} (hD : parseDate D = some (y, mo, d))
    {hrs : HoursEntry} (hH : rest.hours.get (dayClass y mo d) = some hrs)
    {oh om chh cmm : Int} (hO : parseHM hrs.openTime = some (oh, om))
    (hC : parseHM hrs.closeTime = some (chh, cmm)) :
    checkAvailability s R D tOpt psOpt =
      some (match tOpt with
            | none => genSlots (slotFuel oh om chh cmm) oh om chh cmm
                ((getReservationsByDate s R D).map (fun r => r.time))
            | some t =>
              if t == "" then
                genSlots (slotFuel oh om chh cmm) oh om chh cmm
                  ((getReservationsByDate s R D).map (fun r => r.time))
              else narrowSlots t
                (genSlots (slotFuel oh om chh cmm) oh om chh cmm
                  ((getReservationsByDate s R D).map (fun r => r.time)))) := by
  simp only [checkAvailability, hR, hD, hH, hO, hC, hps, Bool.false_eq_true, if_false]

/-- If `T` is a member of any `checkAvailability` result, no reservation in
the store is confirmed at `(R, D, T)`. -/
lemma CA_mem_no_confirmed {s : DataStore} {R D T : String} {tOpt : Option String}
    {psOpt : Option Int} {slots : List String}
    (hCA : checkAvailability s R D tOpt psOpt = some slots) (hT : T ∈ slots) :
    ∀ r ∈ s.reservations, ¬ confirmedAt R D T r := by
  intro r hr hconf
  have hb : ((getReservationsByDate s R D).map (fun x => x.time)).contains T = true :=
    (booked_contains_iff s R D T).mpr ⟨r, hr, hconf⟩
  cases hg : getRestaurant s R with
  | none =>
    simp only [checkAvailability, hg, Option.some_inj] at hCA
    rw [← hCA] at hT
    exact absurd hT (List.not_mem_nil T)
  | some restx =>
    simp only [checkAvailability, hg] at hCA
    split at hCA
    · simp only [Option.some_inj] at hCA
      rw [← hCA] at hT
      exact absurd hT (List.not_mem_nil T)
    · cases hd : parseDate D with
      | none =>
        simp only [hd, Option.some_inj] at hCA
        rw [← hCA] at hT
        exact absurd hT (List.not_mem_nil T)
      | some ymd =>
        obtain ⟨y, mo, d⟩ := ymd
        simp only [hd] at hCA
        cases hhrs : restx.hours.get (dayClass y mo d) with
        | none =>
          simp only [hhrs, Option.some_inj] at hCA
          rw [← hCA] at hT
          exact absurd hT (List.not_mem_nil T)
        | some hrs =>
          simp only [hhrs] at hCA
          cases ho : parseHM hrs.openTime with
          | none => simp only [ho] at hCA; exact absurd hCA (by simp)
          | some ohm =>
            obtain ⟨oh, om⟩ := ohm
            simp only [ho] at hCA
            cases hc : parseHM hrs.closeTime with
            | none => simp only [hc] at hCA; exact absurd hCA (by simp)
            | some chm =>
              obtain ⟨chh, cmm⟩ := chm
              simp only [hc, Option.some_inj] at hCA
              set G := genSlots (slotFuel oh om chh cmm) oh om chh cmm
                  ((getReservationsByDate s R D).map (fun x => x.time)) with hG
              have hTg : T ∈ G := by
                rw [← hCA] at hT
                cases tOpt with
                | none => exact hT
                | some t =>
                  have hT' : T ∈ (if (t == "") = true then G else narrowSlots t G) := hT
                  by_cases ht0 : (t == "") = true
                  · rwa [if_pos ht0] at hT'
                  · rw [if_neg ht0] at hT'; exact mem_narrowSlots hT'
              rw [mem_genSlots_not_booked hTg] at hb
              exact Bool.false_ne_true hb

/-! ## Lemmas about the reservation store -/

lemma mem_replaceFirstById {x r : Reservation} {l : List Reservation}
    (h : x ∈ replaceFirstById l r) : x = r ∨ x ∈ l := by
  induction l with
  | nil =>
    simp only [replaceFirstById, List.mem_singleton] at h
    exact Or.inl h
  | cons a t ih =>
    simp only [replaceFirstById] at h
    by_cases ha : (a.id == r.id) = true
    · rw [if_pos ha] at h
      rcases List.mem_cons.mp h with rfl | ht
      · exact Or.inl rfl
      · exact Or.inr (List.mem_cons_of_mem a ht)
    · rw [if_neg ha] at h
      rcases List.mem_cons.mp h with rfl | ht
      · exact Or.inr (List.mem_cons_self x t)
      · rcases ih ht with h1 | h2
        · exact Or.inl h1
        · exact Or.inr (List.mem_cons_of_mem a h2)

lemma pairwise_replaceFirstById {P : Reservation → Reservation → Prop}
    {l : List Reservation} {r : Reservation} (hl : l.Pairwise P)
    (h1 : ∀ y ∈ l, P y r) (h2 : ∀ y ∈ l, P r y) :
    (replaceFirstById l r).Pairwise P := by
  induction l with
  | nil => simp [replaceFirstById]
  | cons a t ih =>
    rw [List.pairwise_cons] at hl
    obtain ⟨hat, ht⟩ := hl
    simp only [replaceFirstById]
    by_cases ha : (a.id == r.id) = true
    · rw [if_pos ha]
      exact List.pairwise_cons.mpr
        ⟨fun y hy => h2 y (List.mem_cons_of_mem a hy), ht⟩
    · rw [if_neg ha]
      refine List.pairwise_cons.mpr
        ⟨?_, ih ht (fun y hy => h1 y (List.mem_cons_of_mem a hy))
          (fun y hy => h2 y (List.mem_cons_of_mem a hy))⟩
      intro y hy
      rcases mem_replaceFirstById hy with rfl | hyt
      · exact h1 a (List.mem_cons_self a t)
      · exact hat y hyt

/-- Every single `make_reservation` call preserves the no-double-booking
invariant of the store. -/
lemma makeReservation_noDouble (s : DataStore) (R name D T : String) (ps : Int)
    (em ph : Option String) (now : String) (h : NoDouble s.reservations) :
    NoDouble (makeReservation s R name D T ps em ph now).2.reservations := by
  cases hg : getRestaurant s R with
  | none => simp only [makeReservation, hg]; exact h
  | some restaurant =>
    simp only [makeReservation, hg]
    split
    · exact h
    · cases hv : validateReservationData s R D T ps with
    | mk valid msg =>
      cases valid
      · simp only [hv]; exact h
      · simp only [hv]
        cases hca : checkAvailability s R D (some T) (some ps) with
        | none => exact h
        | some slots =>
          dsimp only
          split
          case isTrue hmemb =>
            have hTmem : T ∈ slots := by simpa using hmemb
            have hnc := CA_mem_no_confirmed hca hTmem
            by_cases hp : s.persistFails = true
            · simp only [addReservation, hp, if_true]; exact h
            · have hp' : s.persistFails = false := by simpa using hp
              simp only [addReservation, hp', Bool.false_eq_true, if_false]
              refine pairwise_replaceFirstById h ?_ ?_
              · intro y hy hys _ hc
                exact hnc y hy ⟨hc.1, hc.2.1, hc.2.2, hys⟩
              · intro y hy _ hys hc
                exact hnc y hy ⟨hc.1.symm, hc.2.1.symm, hc.2.2.symm, hys⟩
          case isFalse => exact h

lemma applyMakeCalls_noDouble (calls : List MakeCall) (s : DataStore)
    (h : NoDouble s.reservations) : NoDouble (applyMakeCalls s calls).reservations := by
  induction calls generalizing s with
  | nil => exact h
  | cons c cs ih =>
    exact ih _ (makeReservation_noDouble s c.restaurant_id c.customer_name c.date
      c.time c.party_size c.email c.phone c.now h)

/-- With duplicate-free ids and the id present, replacing the first match is
replacing every match. -/
lemma replaceFirstById_eq_map {l : List Reservation} {r : Reservation}
    (hnd : (l.map (fun x => x.id)).Nodup) (hex : ∃ x ∈ l, x.id = r.id) :
    replaceFirstById l r = l.map (fun x => if x.id = r.id then r else x) := by
  induction l with
  | nil => exact absurd hex (by simp)
  | cons a t ih =>
    simp only [List.map_cons, List.nodup_cons] at hnd
    obtain ⟨hna, hnt⟩ := hnd
    simp only [replaceFirstById, List.map_cons]
    by_cases ha : (a.id == r.id) = true
    · have haid : a.id = r.id := by simpa using ha
      rw [if_pos ha, if_pos haid]
      have : t.map (fun x => if x.id = r.id then r else x) = t.map id := by
        refine List.map_congr_left ?_
        intro x hx
        have hxne : x.id ≠ r.id := by
          intro hxe
          exact hna (by rw [← haid] at hxe; exact (List.mem_map).mpr ⟨x, hx, hxe⟩)
        simp [hxne]
      rw [this, List.map_id]
    · have haid : ¬ a.id = r.id := by simpa using ha
      rw [if_neg ha, if_neg haid]
      have hex' : ∃ x ∈ t, x.id = r.id := by
        obtain ⟨x, hx, hxe⟩ := hex
        rcases List.mem_cons.mp hx with rfl | hxt
        · exact absurd hxe haid
        · exact ⟨x, hxt, hxe⟩
      rw [ih hnt hex']

/-! ## Claim theorems -/

/-- C2: every slot returned by `check_availability(R, D)` for a restaurant
with well-formed hours (hours strings that parse, nonnegative open hour and
closing minute, open minute on the half-hour grid) and a valid date is an
HH:MM rendering of a minutes-of-day value at or after the open time of the
day-class selected for D (weekend hours iff D's weekday is Saturday or
Sunday, via `dayClass`), strictly before the close time, on a 30-minute
cadence anchored at the open time; and the returned sequence is strictly
ascending chronologically. -/
theorem c2_slot_window (s : DataStore) (R D : String) (rest : Restaurant)
    (hrs : HoursEntry) (y mo d : Nat) (oh om chh cmm : Int) (slots : List String)
    (hR : getRestaurant s R = some rest)
    (hD : parseDate D = some (y, mo, d))
    (hH : rest.hours.get (dayClass y mo d) = some hrs)
    (hO : parseHM hrs.openTime = some (oh, om))
    (hC : parseHM hrs.closeTime = some (chh, cmm))
    (hoh : 0 ≤ oh) (hom : om = 0 ∨ om = 30) (hcm : 0 ≤ cmm)
    (hCA : checkAvailability s R D none none = some slots) :
    ∃ ts : List Int, slots = ts.map minToFmt ∧ List.Sorted (· < ·) ts ∧
      ∀ t ∈ ts, (oh * 60 + om ≤ t ∧ ∃ k : Nat, t = oh * 60 + om + 30 * k) ∧
        t < chh * 60 + cmm := by
  rw [checkAvailability_eq s R D none none hR rfl hD hH hO hC] at hCA
  simp only [Option.some_inj] at hCA
  obtain ⟨ts, e, srt, p⟩ :=
    genSlots_spec (slotFuel oh om chh cmm) oh om chh cmm
      ((getReservationsByDate s R D).map (fun r => r.time)) hoh hom hcm
  refine ⟨ts, by rw [← hCA]; exact e, srt, ?_⟩
  intro t ht
  obtain ⟨⟨k, hk⟩, hlt⟩ := p t ht
  exact ⟨⟨by omega, ⟨k, hk⟩⟩, hlt⟩

/-- C2 witness: the fixture restaurant on Wednesday 2025-06-04 with window
19:00-20:00 has slot list `["19:00", "19:30"]`, and the theorem's
conclusion holds for it. -/
theorem c2_slot_window_witness :
    ∃ ts : List Int, ["19:00", "19:30"] = ts.map minToFmt ∧
      List.Sorted (· < ·) ts ∧
      ∀ t ∈ ts, ((19 : Int) * 60 + 0 ≤ t ∧ ∃ k : Nat, t = 19 * 60 + 0 + 30 * k) ∧
        t < 20 * 60 + 0 :=
  c2_slot_window wStoreEmpty "rest_1" "2025-06-04" wRestaurant ⟨"19:00", "20:00"⟩
    2025 6 4 19 0 20 0 ["19:00", "19:30"] (by decide) (by decide) (by decide)
    (by decide) (by decide) (by decide) (Or.inl rfl) (by decide) (by decide)

/-- C4: for an existing restaurant whose capacity is below the requested
party size, `make_reservation` returns the capacity-exceeded error and an
unchanged store, before any date/time validation or availability check —
the date, time and availability state are completely unconstrained here. -/
theorem c4_capacity_first (s : DataStore) (R name D T : String) (ps : Int)
    (em ph : Option String) (now : String) (rest : Restaurant)
    (hR : getRestaurant s R = some rest) (hcap : rest.capacity < ps) :
    makeReservation s R name D T ps em ph now =
      (some (false, Sum.inl (capacityExceededMsg rest.capacity)), s) := by
  simp only [makeReservation, hR, if_pos hcap]

/-- C4 witness: a restaurant with no opening hours at all, a malformed date
and a malformed time still yield the capacity error for party size 6 over
capacity 4 — not a slot, date or time error. -/
theorem c4_capacity_first_witness :
    makeReservation wStoreTwo "rest_2" "Eve" "not-a-date" "99x" 6 none none "X" =
      (some (false, Sum.inl (capacityExceededMsg 4)), wStoreTwo) :=
  c4_capacity_first wStoreTwo "rest_2" "Eve" "not-a-date" "99x" 6 none none "X"
    wRestaurantNoHours (by decide) (by decide)

/-- C1: (i) whenever a confirmed reservation already occupies
`(R, D, T)` and a `make_reservation` call for the same restaurant, date and
time gets past the earlier validation stages (restaurant found, capacity
and input validation pass, availability computes without raising), the call
fails with the slot-unavailable error and leaves the store unchanged;
(ii) every sequence of `make_reservation` calls preserves the invariant
that at most one confirmed reservation occupies a given
`(restaurant_id, date, time)` slot. -/
theorem c1_no_double_booking :
    (∀ (s : DataStore) (R name D T : String) (ps : Int) (em ph : Option String)
        (now : String) (rest : Restaurant) (r : Reservation) (slots : List String),
      getRestaurant s R = some rest →
      ¬ rest.capacity < ps →
      (validateReservationData s R D T ps).1 = true →
      checkAvailability s R D (some T) (some ps) = some slots →
      r ∈ s.reservations → confirmedAt R D T r →
      makeReservation s R name D T ps em ph now =
        (some (false, Sum.inl slotUnavailableMsg), s)) ∧
    (∀ (s : DataStore) (calls : List MakeCall), NoDouble s.reservations →
      NoDouble (applyMakeCalls s calls).reservations) := by
  constructor
  · intro s R name D T ps em ph now rest r slots hR hcap hval hca hr hconf
    have hTnot : T ∉ slots := fun hT => CA_mem_no_confirmed hca hT r hr hconf
    have hcont : ¬ (slots.contains T = true) := by simpa using hTnot
    simp only [makeReservation, hR, if_neg hcap]
    cases hv : validateReservationData s R D T ps with
    | mk valid msg =>
      rw [hv] at hval
      simp only at hval
      subst hval
      simp only [hca]
      rw [if_neg hcont]
  · intro s calls h
    exact applyMakeCalls_noDouble calls s h

/-- C1 witness: with `(rest_1, 2025-06-04, 19:00)` already confirmed, a
second booking at the same slot fails with the slot-unavailable error and
leaves the store unchanged; and a concrete call sequence preserves the
no-double-booking invariant. -/
theorem c1_no_double_booking_witness :
    (makeReservation wStore "rest_1" "Carol" "2025-06-04" "19:00" 2 none none
        "20250604191500" = (some (false, Sum.inl slotUnavailableMsg), wStore)) ∧
    NoDouble (applyMakeCalls wStore
      [{ restaurant_id := "rest_1", customer_name := "Dan", date := "2025-06-04",
         time := "19:30", party_size := 2, now := "20250604191501" },
       { restaurant_id := "rest_1", customer_name := "Eve", date := "2025-06-04",
         time := "19:30", party_size := 2, now := "20250604191502" }]).reservations :=
  ⟨c1_no_double_booking.1 wStore "rest_1" "Carol" "2025-06-04" "19:00" 2 none none
      "20250604191500" wRestaurant wReservation ["19:30"] (by decide) (by decide)
      (by decide) (by decide) (by decide) (by decide),
   c1_no_double_booking.2 wStore _ (by decide)⟩

/-- C3: while a confirmed reservation occupies `(R, D, T)`, `T` never
appears in `check_availability(R, D)`; and cancelling that reservation
(over a duplicate-free store in which it is the only confirmed occupant of
the slot, with persistence working) succeeds and makes the generated slot
`T` appear again in `check_availability(R, D)` — the cancelled reservation
no longer blocks the slot. -/
theorem c3_cancel_restores_slot (s : DataStore) (rid R D T : String)
    (rest : Restaurant) (r : Reservation) (hrs : HoursEntry) (y mo d : Nat)
    (oh om chh cmm : Int)
    (hR : getRestaurant s R = some rest)
    (hr : getReservation s rid = some r)
    (hconf : confirmedAt R D T r)
    (honly : ∀ x ∈ s.reservations, confirmedAt R D T x → x.id = rid)
    (hnd : (s.reservations.map (fun x => x.id)).Nodup)
    (hpf : s.persistFails = false)
    (hD : parseDate D = some (y, mo, d))
    (hH : rest.hours.get (dayClass y mo d) = some hrs)
    (hO : parseHM hrs.openTime = some (oh, om))
    (hC : parseHM hrs.closeTime = some (chh, cmm))
    (hT : T ∈ genSlots (slotFuel oh om chh cmm) oh om chh cmm []) :
    (∀ slots, checkAvailability s R D none none = some slots → T ∉ slots) ∧
    (cancelReservation s rid).1 = (true, "Reservation successfully cancelled") ∧
    ∃ slots, checkAvailability (cancelReservation s rid).2 R D none none = some slots ∧
      T ∈ slots := by
  have hrmem : r ∈ s.reservations := List.mem_of_find?_eq_some hr
  have hrid : r.id = rid := by
    have := List.find?_some hr
    simpa using this
  have hst : r.status = "confirmed" := hconf.2.2.2
  have hne : (r.status == "cancelled") = false := by rw [hst]; decide
  have hs2 : (cancelReservation s rid).2 =
      { s with reservations :=
          replaceFirstById s.reservations { r with status := "cancelled" } } := by
    simp only [cancelReservation, hr, hne, Bool.false_eq_true,
      if_false, addReservation, hpf]
  refine ⟨?_, ?_, ?_⟩
  · intro slots hca hTs
    exact CA_mem_no_confirmed hca hTs r hrmem hconf
  · simp only [cancelReservation, hr, hne, Bool.false_eq_true, if_false]
  · -- after the cancellation no reservation is confirmed at the slot
    have hnone : ∀ x ∈ (cancelReservation s rid).2.reservations,
        ¬ confirmedAt R D T x := by
      rw [hs2]
      intro x hx hcx
      rw [replaceFirstById_eq_map (r := { r with status := "cancelled" }) hnd
        ⟨r, hrmem, rfl⟩] at hx
      obtain ⟨z, hz, hzx⟩ := List.mem_map.mp hx
      by_cases hzid : z.id = r.id
      · rw [if_pos hzid] at hzx
        rw [← hzx] at hcx
        have hcc : ("cancelled" : String) = "confirmed" := hcx.2.2.2
        exact absurd hcc (by decide)
      · rw [if_neg hzid] at hzx
        rw [← hzx] at hcx
        exact hzid ((honly z hz hcx).trans hrid.symm)
    have hR' : getRestaurant (cancelReservation s rid).2 R = some rest := by
      rw [hs2]; exact hR
    have hca' := checkAvailability_eq (cancelReservation s rid).2 R D none none
      hR' rfl hD hH hO hC
    refine ⟨_, hca', ?_⟩
    rw [mem_genSlots_iff]
    refine ⟨hT, ?_⟩
    cases hcb : (((getReservationsByDate (cancelReservation s rid).2 R D).map
        (fun x => x.time)).contains T) with
    | false => rfl
    | true =>
      obtain ⟨x, hx, hcx⟩ := (booked_contains_iff _ R D T).mp hcb
      exact absurd hcx (hnone x hx)

/-- C3 witness: cancelling the sole confirmed reservation on
`(rest_1, 2025-06-04, 19:00)` succeeds and `19:00` is excluded before and
restored after. -/
theorem c3_cancel_restores_slot_witness :
    (∀ slots, checkAvailability wStore "rest_1" "2025-06-04" none none = some slots →
      "19:00" ∉ slots) ∧
    (cancelReservation wStore "res_20250604180000").1 =
      (true, "Reservation successfully cancelled") ∧
    ∃ slots, checkAvailability (cancelReservation wStore "res_20250604180000").2
      "rest_1" "2025-06-04" none none = some slots ∧ "19:00" ∈ slots :=
  c3_cancel_restores_slot wStore "res_20250604180000" "rest_1" "2025-06-04" "19:00"
    wRestaurant wReservation ⟨"19:00", "20:00"⟩ 2025 6 4 19 0 20 0
    (by decide) (by decide) (by decide) (by decide) (by decide) (by decide)
    (by decide) (by decide) (by decide) (by decide) (by decide)

/-! ## Lemmas about search -/

lemma strIn_empty (hay : String) : strIn "" hay = true := by
  unfold strIn
  have h0 : ("" : String).data = [] := rfl
  rw [h0]
  cases hd : hay.data with
  | nil => rfl
  | cons c t =>
    show (([] : List Char).isPrefixOf (c :: t) || hasInfix t []) = true
    simp [List.isPrefixOf]

lemma textComponent_eq (o : Option String) (hay : String) :
    (match o with
     | some c => c == "" || strIn (pyLower c) (pyLower hay)
     | none => true) =
    (match o with
     | some c => strIn (pyLower c) (pyLower hay)
     | none => true) := by
  cases o with
  | none => rfl
  | some c =>
    by_cases h0 : c = ""
    · subst h0
      have he : pyLower "" = "" := rfl
      simp [he, strIn_empty]
    · simp [h0]

/-- Python truthiness of a nonzero numeric filter: the guard
`p and a > b`-style skip condition reduces to the plain comparison. -/
lemma pyTruthyCompare (p a b : Int) (hp0 : p ≠ 0) :
    (p == 0 || !(decide (a < b))) = decide (b ≤ a) := by
  by_cases hlt : a < b
  · simp [hp0, hlt, not_le.mpr hlt]
  · simp [hp0, hlt, not_lt.mp hlt]

lemma searchMatch_eq_spec (cuisine location : Option String) (pr ps : Option Int)
    (hpr : pr ≠ some 0) (hps : ps ≠ some 0) (r : Restaurant) :
    searchMatch cuisine location pr ps r = searchMatchSpec cuisine location pr ps r := by
  unfold searchMatch searchMatchSpec
  rw [textComponent_eq cuisine r.cuisine, textComponent_eq location r.location]
  cases pr with
  | none =>
    cases ps with
    | none => rfl
    | some q =>
      have hq0 : q ≠ 0 := fun he => hps (by rw [he])
      dsimp only
      rw [pyTruthyCompare q r.capacity q hq0]
  | some p =>
    have hp0 : p ≠ 0 := fun he => hpr (by rw [he])
    cases ps with
    | none =>
      dsimp only
      rw [pyTruthyCompare p p r.price_range hp0]
    | some q =>
      have hq0 : q ≠ 0 := fun he => hps (by rw [he])
      dsimp only
      rw [pyTruthyCompare p p r.price_range hp0, pyTruthyCompare q r.capacity q hq0]

lemma searchGo_take (cuisine location : Option String) (pr ps : Option Int)
    (limit : Int) (l : List Restaurant) :
    ∀ count : Int, count < limit →
      searchGo cuisine location pr ps limit l count =
        (l.filter (searchMatch cuisine location pr ps)).take (limit - count).toNat := by
  induction l with
  | nil => intro count h; simp [searchGo]
  | cons r rest ih =>
    intro count h
    simp only [searchGo, List.filter_cons]
    by_cases hm : searchMatch cuisine location pr ps r = true
    · rw [if_pos hm, hm]
      simp only [if_true]
      by_cases hstop : limit ≤ count + 1
      · rw [if_pos hstop]
        have h1 : (limit - count).toNat = 1 := by omega
        rw [h1]
        simp [List.take_succ_cons]
      · rw [if_neg hstop]
        rw [ih (count + 1) (by omega)]
        have h1 : (limit - count).toNat = (limit - (count + 1)).toNat + 1 := by omega
        rw [h1, List.take_succ_cons]
    · rw [if_neg hm]
      have hm' : searchMatch cuisine location pr ps r = false := by
        simpa using hm
      rw [hm']
      simp only [Bool.false_eq_true, if_false]
      exact ih count h

/-! ## Lemma: lifecycle operations never revive a cancelled reservation -/

lemma lifecycleOp_cancelLocked (s : DataStore) (op : LifecycleOp) (i : String)
    (h : CancelLocked s i) : CancelLocked (applyLifecycleOp s op) i := by
  cases op with
  | update rid u =>
    show CancelLocked (updateReservation s rid u).2 i
    cases hg : getReservation s rid with
    | none => simp only [updateReservation, hg]; exact h
    | some r =>
      simp only [updateReservation, hg]
      by_cases hc : (r.status == "cancelled") = true
      · rw [if_pos hc]; exact h
      · rw [if_neg hc]
        have hsave : CancelLocked (addReservation s (applyUpdates r u)).2 i := by
          by_cases hp : s.persistFails = true
          · simp only [addReservation, hp, if_true]; exact h
          · have hp' : s.persistFails = false := by simpa using hp
            simp only [addReservation, hp', Bool.false_eq_true, if_false]
            intro x hx hxi
            rcases mem_replaceFirstById hx with rfl | hxm
            · have hrid : r.id = i := hxi
              have hrc := h r (List.mem_of_find?_eq_some hg) hrid
              rw [hrc] at hc
              exact absurd (by decide : (("cancelled" : String) == "cancelled") = true) hc
            · exact h x hxm hxi
        split
        · cases hca : checkAvailability s r.restaurant_id (u.date.getD r.date)
              (some (u.time.getD r.time)) (some (u.party_size.getD r.party_size)) with
          | none => exact h
          | some slots =>
            dsimp only
            split
            · exact hsave
            · exact h
        · exact hsave
  | cancel rid =>
    show CancelLocked (cancelReservation s rid).2 i
    cases hg : getReservation s rid with
    | none => simp only [cancelReservation, hg]; exact h
    | some r =>
      simp only [cancelReservation, hg]
      by_cases hc : (r.status == "cancelled") = true
      · rw [if_pos hc]; exact h
      · rw [if_neg hc]
        by_cases hp : s.persistFails = true
        · simp only [addReservation, hp, if_true]; exact h
        · have hp' : s.persistFails = false := by simpa using hp
          simp only [addReservation, hp', Bool.false_eq_true, if_false]
          intro x hx hxi
          rcases mem_replaceFirstById hx with rfl | hxm
          · rfl
          · exact h x hxm hxi

/-- C5 evaluation at the failing input: the availability re-check of
`update_reservation` does not exclude the reservation's own slot, so a
party-size-only update (2 to 3, within capacity 4, same date and time) of
a confirmed reservation is rejected with the slot-unavailable error and
the store is left unchanged — contradicting the specified behaviour that
such an update succeeds. -/
theorem c5_update_rejects_own_slot :
    updateReservation wStore "res_20250604180000" { party_size := some 3 } =
      (some (false, Sum.inl slotUnavailableMsg), wStore) := by decide

/-- C6 counterexample: when persistence fails, `make_reservation` returns
success flag `false` but its payload is the constructed `Reservation`
object (`Sum.inr`, still marked confirmed), not an error value — the claim
that the returned failure carries an error rather than a reservation is
false on the code.  The store is unchanged. -/
theorem c6_failure_carries_reservation :
    makeReservation wStoreFail "rest_1" "Bob" "2025-06-04" "19:00" 2 none none "X" =
      (some (false, Sum.inr
        { id := "res_X", restaurant_id := "rest_1", customer_name := "Bob",
          date := "2025-06-04", time := "19:00", party_size := 2, email := none,
          phone := none, status := "confirmed" }), wStoreFail) := by decide

/-- C6 amended: whenever the store's persistence fails and
`make_reservation` reaches the save step, it returns success flag `false`
(the reservation is not considered made) with the constructed reservation
object — not an error message — as payload, and the store is unchanged. -/
theorem c6_persist_failure_not_made (s : DataStore) (R name D T : String)
    (ps : Int) (em ph : Option String) (now : String) (rest : Restaurant)
    (slots : List String)
    (hR : getRestaurant s R = some rest) (hcap : ¬ rest.capacity < ps)
    (hval : (validateReservationData s R D T ps).1 = true)
    (hca : checkAvailability s R D (some T) (some ps) = some slots)
    (hmem : slots.contains T = true)
    (hpf : s.persistFails = true) :
    makeReservation s R name D T ps em ph now =
      (some (false, Sum.inr
        { id := "res_" ++ now, restaurant_id := R, customer_name := name,
          date := D, time := T, party_size := ps, email := em, phone := ph,
          status := "confirmed" }), s) := by
  simp only [makeReservation, hR, if_neg hcap]
  cases hv : validateReservationData s R D T ps with
  | mk valid msg =>
    rw [hv] at hval
    simp only at hval
    subst hval
    simp only [hca]
    rw [if_pos hmem]
    simp only [addReservation, hpf, if_true]

/-- C6 amended witness: concrete failing-persistence booking returns
`(false, reservation)` and the unchanged store. -/
theorem c6_persist_failure_not_made_witness :
    makeReservation wStoreFail "rest_1" "Ann" "2025-06-04" "19:30" 2 none none "Y" =
      (some (false, Sum.inr
        { id := "res_" ++ "Y", restaurant_id := "rest_1", customer_name := "Ann",
          date := "2025-06-04", time := "19:30", party_size := 2, email := none,
          phone := none, status := "confirmed" }), wStoreFail) :=
  c6_persist_failure_not_made wStoreFail "rest_1" "Ann" "2025-06-04" "19:30" 2
    none none "Y" wRestaurant ["19:00", "19:30"] (by decide) (by decide)
    (by decide) (by decide) (by decide) (by decide)

/-- C7 evaluation at the failing input: two `make_reservation` calls inside
the same wall-clock second (same `%Y%m%d%H%M%S` stamp) both succeed and
produce the SAME id `res_20250604190000` — the id is the bare timestamp
with no disambiguator — and the second call's upsert-by-id replaces the
first reservation, leaving a single stored reservation. -/
theorem c7_same_second_id_collision :
    (makeReservation wStoreEmpty "rest_1" "Bob" "2025-06-04" "19:00" 2 none none
        "20250604190000").1 = some (true, Sum.inr
      { id := "res_20250604190000", restaurant_id := "rest_1",
        customer_name := "Bob", date := "2025-06-04", time := "19:00",
        party_size := 2, email := none, phone := none, status := "confirmed" }) ∧
    (makeReservation (makeReservation wStoreEmpty "rest_1" "Bob" "2025-06-04"
        "19:00" 2 none none "20250604190000").2 "rest_1" "Carol" "2025-06-04"
        "19:30" 2 none none "20250604190000").1 = some (true, Sum.inr
      { id := "res_20250604190000", restaurant_id := "rest_1",
        customer_name := "Carol", date := "2025-06-04", time := "19:30",
        party_size := 2, email := none, phone := none, status := "confirmed" }) ∧
    (makeReservation (makeReservation wStoreEmpty "rest_1" "Bob" "2025-06-04"
        "19:00" 2 none none "20250604190000").2 "rest_1" "Carol" "2025-06-04"
        "19:30" 2 none none "20250604190000").2.reservations =
      [{ id := "res_20250604190000", restaurant_id := "rest_1",
         customer_name := "Carol", date := "2025-06-04", time := "19:30",
         party_size := 2, email := none, phone := none, status := "confirmed" }] := by
  decide

/-- C8 counterexample: `update_reservation` copies an arbitrary supplied
status value onto a confirmed reservation, so status takes the value
`"pending"`, which is outside `{confirmed, cancelled}` — the claimed
closedness of the status set is false on the code. -/
theorem c8_status_not_closed_counterexample :
    (updateReservation wStore "res_20250604180000" { status := some "pending" }).1 =
      some (true, Sum.inr
        { id := "res_20250604180000", restaurant_id := "rest_1",
          customer_name := "Bob", date := "2025-06-04", time := "19:00",
          party_size := 2, email := none, phone := none, status := "pending" }) ∧
    (updateReservation wStore "res_20250604180000"
        { status := some "pending" }).2.reservations =
      [{ id := "res_20250604180000", restaurant_id := "rest_1",
         customer_name := "Bob", date := "2025-06-04", time := "19:00",
         party_size := 2, email := none, phone := none, status := "pending" }] ∧
    ("pending" ≠ "confirmed" ∧ "pending" ≠ "cancelled") := by decide

/-- C8 amended: the one-way part of the claim holds — under every sequence
of `update_reservation` and `cancel_reservation` calls, a reservation whose
stored entries are cancelled stays cancelled forever (cancelled
reservations reject every edit, so none is ever revived to confirmed);
however the status set is not closed, because `update_reservation` applies
any supplied status string to a non-cancelled reservation. -/
theorem c8_cancelled_never_revived (ops : List LifecycleOp) (s : DataStore)
    (i : String) (h : CancelLocked s i) :
    CancelLocked (applyLifecycleOps s ops) i := by
  induction ops generalizing s with
  | nil => exact h
  | cons op rest ih => exact ih _ (lifecycleOp_cancelLocked s op i h)

/-- C8 amended witness: a cancelled reservation stays cancelled across an
update that tries to set it back to confirmed, a repeated cancel, and a
time edit. -/
theorem c8_cancelled_never_revived_witness :
    CancelLocked (applyLifecycleOps wStoreCancelled
      [LifecycleOp.update "res_cancelled" { status := some "confirmed" },
       LifecycleOp.cancel "res_cancelled",
       LifecycleOp.update "res_cancelled" { time := some "19:00" }])
      "res_cancelled" :=
  c8_cancelled_never_revived
    [LifecycleOp.update "res_cancelled" { status := some "confirmed" },
     LifecycleOp.cancel "res_cancelled",
     LifecycleOp.update "res_cancelled" { time := some "19:00" }]
    wStoreCancelled "res_cancelled" (by decide)

/-- C9 counterexample: with `limit = 0` the loop checks the cap only after
appending, so the search still returns one restaurant instead of stopping
at zero collected matches — the claim's stopping rule is false at
limit 0. -/
theorem c9_limit_zero_counterexample :
    ¬ ((searchRestaurants wCatalog (some "italian") none none none 0).length ≤ 0) := by
  decide

/-- C9 amended: for every positive limit and nonzero numeric criteria
(Python truthiness treats 0 as unsupplied), the search returns, in catalog
order, the first `limit` restaurants matching all supplied criteria —
cuisine and location by case-insensitive substring, price tier at most the
requested maximum, capacity at least the party size. -/
theorem c9_search_first_matches (s : DataStore) (cuisine location : Option String)
    (pr ps : Option Int) (limit : Int) (hl : 1 ≤ limit)
    (hpr : pr ≠ some 0) (hps : ps ≠ some 0) :
    searchRestaurants s cuisine location pr ps limit =
      (s.restaurants.filter (searchMatchSpec cuisine location pr ps)).take
        limit.toNat := by
  unfold searchRestaurants
  rw [searchGo_take cuisine location pr ps limit s.restaurants 0 (by omega)]
  rw [show limit - 0 = limit by ring]
  congr 1
  exact List.filter_congr (fun x _ => searchMatch_eq_spec cuisine location pr ps
    hpr hps x)

/-- C9 amended witness: the Italian search with limit 2 over the
3-Italian/2-Japanese catalog equals the specification's filter-take and is
exactly the first two Italian restaurants in catalog order. -/
theorem c9_search_first_matches_witness :
    (searchRestaurants wCatalog (some "italian") none none none 2 =
      (wCatalog.restaurants.filter
        (searchMatchSpec (some "italian") none none none)).take (2 : Int).toNat) ∧
    searchRestaurants wCatalog (some "italian") none none none 2 =
      [wItalian "it_1", wItalian "it_2"] :=
  ⟨c9_search_first_matches wCatalog (some "italian") none none none 2
      (by decide) (by decide) (by decide),
   by decide⟩

/-- C10: `update_reservation` and `cancel_reservation` report success
regardless of the persistence outcome — whenever they reach the save step
their returned flag is `true` (with the updated reservation, resp. the
success message), no matter the store's `persistFails` state — unlike
`make_reservation`, whose returned success flag is exactly the value
`add_reservation` returned. -/
theorem c10_save_result_ignored :
    (∀ (s : DataStore) (rid : String) (u : Updates) (r : Reservation),
      getReservation s rid = some r →
      (r.status == "cancelled") = false →
      ((u.date.getD r.date = r.date ∧ u.time.getD r.time = r.time ∧
        u.party_size.getD r.party_size = r.party_size) ∨
       (∃ slots, checkAvailability s r.restaurant_id (u.date.getD r.date)
          (some (u.time.getD r.time)) (some (u.party_size.getD r.party_size)) =
            some slots ∧ slots.contains (u.time.getD r.time) = true)) →
      (updateReservation s rid u).1 = some (true, Sum.inr (applyUpdates r u))) ∧
    (∀ (s : DataStore) (rid : String) (r : Reservation),
      getReservation s rid = some r →
      (r.status == "cancelled") = false →
      (cancelReservation s rid).1 = (true, "Reservation successfully cancelled")) ∧
    (∀ (s : DataStore) (R name D T : String) (ps : Int) (em ph : Option String)
        (now : String) (rest : Restaurant) (slots : List String),
      getRestaurant s R = some rest → ¬ rest.capacity < ps →
      (validateReservationData s R D T ps).1 = true →
      checkAvailability s R D (some T) (some ps) = some slots →
      slots.contains T = true →
      (makeReservation s R name D T ps em ph now).1 =
        some (!s.persistFails, Sum.inr
          { id := "res_" ++ now, restaurant_id := R, customer_name := name,
            date := D, time := T, party_size := ps, email := em, phone := ph,
            status := "confirmed" })) := by
  refine ⟨?_, ?_, ?_⟩
  · intro s rid u r hg hc hbr
    simp only [updateReservation, hg]
    rw [if_neg (by rw [hc]; exact Bool.false_ne_true)]
    rcases hbr with ⟨h1, h2, h3⟩ | ⟨slots, hca, hmem⟩
    · have hcond : (u.date.getD r.date != r.date || u.time.getD r.time != r.time ||
          u.party_size.getD r.party_size != r.party_size) = false := by
        rw [h1, h2, h3]; simp
      rw [if_neg (by rw [hcond]; exact Bool.false_ne_true)]
    · by_cases hcond : (u.date.getD r.date != r.date ||
          u.time.getD r.time != r.time ||
          u.party_size.getD r.party_size != r.party_size) = true
      · rw [if_pos hcond]
        simp only [hca]
        rw [if_pos hmem]
      · rw [if_neg hcond]
  · intro s rid r hg hc
    simp only [cancelReservation, hg]
    rw [if_neg (by rw [hc]; exact Bool.false_ne_true)]
  · intro s R name D T ps em ph now rest slots hR hcap hval hca hmem
    simp only [makeReservation, hR, if_neg hcap]
    cases hv : validateReservationData s R D T ps with
    | mk valid msg =>
      rw [hv] at hval
      simp only at hval
      subst hval
      simp only [hca]
      rw [if_pos hmem]
      cases hp : s.persistFails <;> simp [addReservation, hp]

/-- C10 witness: over a failing-persistence store, an email-only update and
a cancel both report success while a booking reports failure (the save
result). -/
theorem c10_save_result_ignored_witness :
    ((updateReservation wStoreFailBooked "res_20250604180000"
        { email := some (some "bob@example.com") }).1 =
      some (true, Sum.inr (applyUpdates wReservation
        { email := some (some "bob@example.com") }))) ∧
    ((cancelReservation wStoreFailBooked "res_20250604180000").1 =
      (true, "Reservation successfully cancelled")) ∧
    ((makeReservation wStoreFail "rest_1" "Ann" "2025-06-04" "19:00" 2 none none
        "Z").1 = some (!(wStoreFail.persistFails), Sum.inr
      { id := "res_" ++ "Z", restaurant_id := "rest_1", customer_name := "Ann",
        date := "2025-06-04", time := "19:00", party_size := 2, email := none,
        phone := none, status := "confirmed" })) :=
  ⟨c10_save_result_ignored.1 wStoreFailBooked "res_20250604180000"
      { email := some (some "bob@example.com") } wReservation (by decide)
      (by decide) (Or.inl ⟨rfl, rfl, rfl⟩),
   c10_save_result_ignored.2.1 wStoreFailBooked "res_20250604180000" wReservation
      (by decide) (by decide),
   c10_save_result_ignored.2.2 wStoreFail "rest_1" "Ann" "2025-06-04" "19:00" 2
      none none "Z" wRestaurant ["19:00", "19:30"] (by decide) (by decide)
      (by decide) (by decide) (by decide)⟩

end FoodieSpot
